/-
Verification of the dependency-analysis tools (dependency_tools.py and
analyze_python_ast.py): a shallow embedding of the pure analysis logic,
with theorems checking the natural-language specification against it.

Conventions of the embedding:
* Python strings are Lean `String` / `List Char`; machine semantics of
  `str.strip`, the concrete regular expressions, and `str.split` are spelled
  out as executable functions over `List Char`.
* Directory traversal, file reading and structured-data (toml/yaml) parsing
  are external collaborators (spec section 1): their outcomes are inputs,
  with `Except String` modelling a Python call that may raise.
* A Python `try/except` that logs and falls through is a `match` on the
  `Except` input; a function with no handler propagates the `Except.error`.
* The Python `set` used by the inline import scanner is modelled as an
  insertion-ordered deduplicating list; the iteration order of `list(set)`
  is thereby fixed deterministically for a given run of the interpreter.
-/
import Mathlib

/-! ## Version/Condition Splitter (dependency_tools.py, split_dependency) -/

/-- ASCII whitespace as matched by `str.strip()` and the regex class. -/
def pyIsSpace (c : Char) : Bool :=
  c = ' ' || c = '\t' || c = '\n' || c = '\r' || c = '\x0b' || c = '\x0c'

/-- Remove trailing whitespace (the right half of `str.strip()`). -/
def stripEnd (l : List Char) : List Char :=
  (l.reverse.dropWhile pyIsSpace).reverse

/-- Python `str.strip()` on a character list. -/
def pyStrip (l : List Char) : List Char :=
  stripEnd (l.dropWhile pyIsSpace)

/-- Python `str.strip()` on a `String`. -/
def pyStripS (s : String) : String :=
  (pyStrip s.toList).asString

/-- A character of the regex class of word characters. -/
def isWordChar (c : Char) : Bool :=
  c.isAlphanum || c = '_'

/-- A character of the class of the package-name group of the pattern. -/
def isNameChar (c : Char) : Bool :=
  isWordChar c || c = '-'

/-- A comparator character of the pattern. -/
def isCompChar (c : Char) : Bool :=
  c = '<' || c = '>' || c = '=' || c = '~' || c = '!'

/-- A character of the version-text class of the pattern. -/
def isVerChar (c : Char) : Bool :=
  isWordChar c || c = '.' || c = '*'

/-- The prefix match of the splitter pattern against the (stripped) specifier,
mirroring the raw pattern of dependency_tools.py line 15: a nonempty run of
name characters, an optional bracketed extras group, an optional clause of one
comparator character followed by one whitespace character and a nonempty run
of version characters, and an optional clause of a semicolon followed by at
least one non-newline character.  All groups after the first are optional and
the tail of the pattern can never fail, so each greedy submatch commits. -/
def matchSplit (s : List Char) :
    Option (List Char × Option (List Char) × Option (List Char)) :=
  let g1 := s.takeWhile isNameChar
  if g1.isEmpty then none
  else
    let r1 := s.dropWhile isNameChar
    let r2 :=
      match r1 with
      | '[' :: rest =>
        let inner := rest.takeWhile (fun c => c != ']')
        match rest.dropWhile (fun c => c != ']') with
        | ']' :: tail => if inner.isEmpty then r1 else tail
        | _ => r1
      | _ => r1
    let step2 : Option (List Char) × List Char :=
      match r2 with
      | c :: w :: rest =>
        if isCompChar c && pyIsSpace w then
          let ver := rest.takeWhile isVerChar
          if ver.isEmpty then (none, r2)
          else (some (c :: w :: ver), rest.dropWhile isVerChar)
        else (none, r2)
      | _ => (none, r2)
    let g3 :=
      match step2.2 with
      | ';' :: rest =>
        let body := rest.takeWhile (fun c => c != '\n')
        if body.isEmpty then none else some (';' :: body)
      | _ => none
    some (g1, step2.1, g3)

/-- dependency_tools.py lines 14-23: split a raw dependency specifier into
`(package, version)`.  On a pattern match, the version is the stripped
comparator clause, with the stripped condition clause appended space-joined
when present; an empty version becomes `"Unknown"`.  On no match the original
(unstripped) specifier is returned as the package with version `"Unknown"`. -/
def split_dependency (dep : String) : String × String :=
  match matchSplit (pyStrip dep.toList) with
  | some (g1, g2, g3) =>
    let version := pyStrip (g2.getD [])
    let condition := pyStrip (g3.getD [])
    let version2 := if condition.isEmpty then version
      else pyStrip (version ++ ' ' :: condition)
    (g1.asString, if version2.isEmpty then "Unknown" else version2.asString)
  | none => (dep, "Unknown")

/-- A single-quote character as a string (to spell out specifier examples). -/
def singleQuote : String := (Char.ofNat 39).toString

/-- The extras-and-condition specifier example of the specification. -/
def specifierWithExtras : String :=
  "pkg[extra]>=1.0; python_version>=" ++ singleQuote ++ "3.8" ++ singleQuote

/-! ## Manifest parsers (dependency_tools.py)

Every parser takes the file path and the outcome of reading/parsing the
file (an external collaborator), and yields `Except String (List Triple)`:
`Except.error` at the outer level means the Python function propagated an
exception to its caller. -/

/-- A `(source path, package, version)` dependency record. -/
abbrev Triple := String × String × String

/-- The record built from one raw specifier, `(file_path,) + split_dependency(dep)`. -/
def depTriple (path dep : String) : Triple :=
  (path, (split_dependency dep).1, (split_dependency dep).2)

/-- The relevant shape of a parsed Pipfile: the optional `packages` and
`dev-packages` tables, each a name-to-version mapping in document order. -/
structure PipfileData where
  packages : Option (List (String × String))
  devPackages : Option (List (String × String))

/-- dependency_tools.py lines 39-50: the whole body is inside `try/except`,
so a load failure is logged and the empty list is returned; each table entry
is split after concatenating name and version text. -/
def extract_pipfile_dependencies (path : String)
    (inp : Except String PipfileData) : Except String (List Triple) :=
  Except.ok (match inp with
    | Except.error _ => []
    | Except.ok d =>
      (d.packages.getD []).map (fun pv => depTriple path (pv.1 ++ pv.2)) ++
      (d.devPackages.getD []).map (fun pv => depTriple path (pv.1 ++ pv.2)))

/-- The `tool.poetry` table of a pyproject file: optional `dependencies` and
`dev-dependencies` name-to-version mappings. -/
structure PoetryData where
  dependencies : Option (List (String × String))
  devDependencies : Option (List (String × String))

/-- The relevant shape of a parsed pyproject.toml: `toolPoetry` is present
exactly when `"tool"` is a key and `"poetry"` a key under it;
`projectDependencies` is present exactly when `"project"` is a key and
`"dependencies"` a key under it (a list of raw specifiers). -/
structure PyprojectData where
  toolPoetry : Option PoetryData
  projectDependencies : Option (List String)

/-- dependency_tools.py lines 52-69: body inside `try/except`; the nested
`tool.poetry` branch is taken when present (its two sections concatenated,
each entry split after concatenating name and version), and only otherwise
is the standard `project.dependencies` list read. -/
def extract_pyproject_dependencies (path : String)
    (inp : Except String PyprojectData) : Except String (List Triple) :=
  Except.ok (match inp with
    | Except.error _ => []
    | Except.ok d =>
      match d.toolPoetry with
      | some pd =>
        (pd.dependencies.getD []).map (fun pv => depTriple path (pv.1 ++ pv.2)) ++
        (pd.devDependencies.getD []).map (fun pv => depTriple path (pv.1 ++ pv.2))
      | none =>
        match d.projectDependencies with
        | some deps => deps.map (fun dep => depTriple path dep)
        | none => [])

/-- One entry of the `package` array of a poetry.lock file; `get` defaults
are `""` for the name and `"Unknown"` for the version. -/
structure LockPackage where
  name : Option String
  version : Option String

/-- The relevant shape of a parsed poetry.lock: the optional `package` array. -/
structure PoetryLockData where
  package : Option (List LockPackage)

/-- dependency_tools.py lines 71-82: body inside `try/except`; names and
versions are taken verbatim with `get` defaults, no splitting. -/
def extract_poetry_lock_dependencies (path : String)
    (inp : Except String PoetryLockData) : Except String (List Triple) :=
  Except.ok (match inp with
    | Except.error _ => []
    | Except.ok d =>
      (d.package.getD []).map (fun pk =>
        (path, pk.name.getD "", pk.version.getD "Unknown")))

/-- One entry of the `dependencies` list of a conda environment file: a plain
string, a mapping with a `pip` key holding a list of specifiers, or any other
value (skipped by the `isinstance` dispatch). -/
inductive CondaDep where
  | strDep (s : String)
  | pipMap (pips : List String)
  | otherDep

/-- The relevant shape of a parsed environment.yml: the optional
`dependencies` list. -/
structure CondaData where
  dependencies : Option (List CondaDep)

/-- dependency_tools.py lines 84-99: body inside `try/except`; plain string
entries and the members of a `pip` mapping are split, other entries skipped. -/
def get_conda_dependencies (path : String)
    (inp : Except String CondaData) : Except String (List Triple) :=
  Except.ok (match inp with
    | Except.error _ => []
    | Except.ok d =>
      (d.dependencies.getD []).foldr (fun dep acc =>
        match dep with
        | CondaDep.strDep s => depTriple path s :: acc
        | CondaDep.pipMap pips => pips.map (fun p => depTriple path p) ++ acc
        | CondaDep.otherDep => acc) [])

/-- dependency_tools.py lines 101-112: body inside `try/except`; each
stripped, nonempty, non-comment line is split on `"=="` into the package and
an optional version (each stripped), missing version meaning `"Unknown"`. -/
def get_pip_dependencies (path : String)
    (inp : Except String (List String)) : Except String (List Triple) :=
  Except.ok (match inp with
    | Except.error _ => []
    | Except.ok lines =>
      lines.foldr (fun line acc =>
        let l := pyStripS line
        if l = "" then acc
        else if l.startsWith "#" then acc
        else
          match l.splitOn "==" with
          | [] => acc
          | p :: rest =>
            (path, pyStripS p,
              match rest with
              | [] => "Unknown"
              | v :: _ => pyStripS v) :: acc) [])

/-- A string-literal element of a Python list expression (other elements are
skipped by the `isinstance(item, ast.Str)` filter). -/
inductive PyExpr where
  | strLit (s : String)
  | otherExpr

/-- A keyword argument of a call: its (optional) name, and whether its value
is a literal list (with its elements) or anything else. -/
inductive KwValue where
  | listVal (elts : List PyExpr)
  | otherVal

/-- A keyword argument node. -/
structure SetupKeyword where
  arg : Option String
  value : KwValue

/-- A call node met by `ast.walk`: the called name when the function
expression is a plain name, and the keyword arguments. -/
structure CallNode where
  funcName : Option String
  keywords : List SetupKeyword

/-- dependency_tools.py lines 29-36: collect the string literals of every
`install_requires` list keyword of every call to `setup`, in walk order. -/
def installRequiresOf (calls : List CallNode) : List String :=
  calls.foldl (fun acc call =>
    if call.funcName = some "setup" then
      call.keywords.foldl (fun a kw =>
        match kw.arg, kw.value with
        | some "install_requires", KwValue.listVal elts =>
          a ++ elts.foldr (fun e b =>
            match e with
            | PyExpr.strLit s => s :: b
            | PyExpr.otherExpr => b) []
        | _, _ => a) acc
    else acc) []

/-- dependency_tools.py lines 25-37: `parse_setup_py` has no `try/except` of
its own — a read or parse failure (`Except.error`) propagates to the caller.
On success every collected specifier is split. -/
def parse_setup_py (path : String)
    (inp : Except String (List CallNode)) : Except String (List Triple) :=
  match inp with
  | Except.error e => Except.error e
  | Except.ok calls =>
    Except.ok ((installRequiresOf calls).map (fun dep => depTriple path dep))

/-! ## Inline-Import Scanner (dependency_tools.py lines 11-12, 114-131) -/

/-- The runtime environment probed by `is_builtin_module`: the interpreter's
builtin-module registry and whether `importlib.util.find_spec` locates a
module (modelled as a total predicate). -/
structure ScanEnv where
  builtins : List String
  findSpec : String → Bool

/-- dependency_tools.py lines 11-12: true when the name is in the builtin
registry or `find_spec` returns `None` (the module is not locatable). -/
def is_builtin_module (env : ScanEnv) (module_name : String) : Bool :=
  env.builtins.contains module_name || !(env.findSpec module_name)

/-- A character of the dotted-identifier group of the scanner pattern. -/
def isModChar (c : Char) : Bool :=
  isWordChar c || c = '.'

/-- The scanner's line pattern (dependency_tools.py line 116), anchored at
line start: optional whitespace, the keyword `import` or `from`, at least one
whitespace character, then the captured nonempty run of word/dot characters. -/
def lineImportModule (line : List Char) : Option (List Char) :=
  let r := line.dropWhile pyIsSpace
  let afterKw : Option (List Char) :=
    if List.isPrefixOf "import".toList r then some (r.drop 6)
    else if List.isPrefixOf "from".toList r then some (r.drop 4)
    else none
  match afterKw with
  | none => none
  | some rest =>
    match rest with
    | c :: _ =>
      if pyIsSpace c then
        let m := (rest.dropWhile pyIsSpace).takeWhile isModChar
        if m.isEmpty then none else some m
      else none
    | [] => none

/-- `match.group(1).split(".")[0]`: the leading dot-free segment. -/
def topLevel (raw : List Char) : String :=
  (raw.takeWhile (fun c => c != '.')).asString

/-- The record the scanner derives from one line, if any: the line must match
the pattern and the top-level module must not be judged builtin. -/
def lineTriple (env : ScanEnv) (path label : String) (line : List Char) :
    Option Triple :=
  match lineImportModule line with
  | none => none
  | some raw =>
    if is_builtin_module env (topLevel raw) then none
    else some (path, topLevel raw, label)

/-- `set.add`, with the set modelled as an insertion-ordered list. -/
def setInsert {α : Type} [DecidableEq α] (acc : List α) (t : α) : List α :=
  if t ∈ acc then acc else acc ++ [t]

/-- Scan the lines of one readable file, threading the accumulated set. -/
def scanFileLines (env : ScanEnv) (path label : String)
    (acc : List Triple) (lines : List (List Char)) : List Triple :=
  lines.foldl (fun a line =>
    match lineTriple env path label line with
    | none => a
    | some t => setInsert a t) acc

/-- dependency_tools.py lines 114-131: walk the project's source files (given
here in directory-walk order, each either its list of lines or a read error
that is logged with the file skipped), collect into one set, return as list. -/
def extract_python_file_dependencies (env : ScanEnv)
    (files : List (String × Except String (List (List Char))))
    (label : String) : List Triple :=
  files.foldl (fun acc f =>
    match f.2 with
    | Except.error _ => acc
    | Except.ok lines => scanFileLines env f.1 label acc lines) []

/-! ## Dependency Aggregator (dependency_tools.py lines 139-177) -/

/-- The outcome of `find_file` plus reading/parsing for each well-known
manifest (in the dict order of the source), and the source files for the
inline scan.  `none` means `find_file` found no such file. -/
structure ProjectInput where
  pyproject : Option (String × Except String PyprojectData)
  poetryLock : Option (String × Except String PoetryLockData)
  pipfile : Option (String × Except String PipfileData)
  conda : Option (String × Except String CondaData)
  requirements : Option (String × Except String (List String))
  setupPy : Option (String × Except String (List CallNode))
  pyFiles : List (String × Except String (List (List Char)))

/-- One aggregator step (lines 162-168): a missing manifest contributes
nothing; an extractor result extends the list; an extractor exception is
caught by the aggregator's own `try/except`, logged, and contributes
nothing. -/
def runExtractor (acc : List Triple)
    (r : Option (Except String (List Triple))) : List Triple :=
  match r with
  | none => acc
  | some (Except.ok l) => acc ++ l
  | some (Except.error _) => acc

/-- dependency_tools.py lines 141-175 (the record-producing core of the tool;
the CSV sink is an external collaborator): run the six manifest extractors in
dict order, then append the inline-scan results with label `"Python"`. -/
def extract_project_dependencies (env : ScanEnv) (inp : ProjectInput) :
    List Triple :=
  let acc := runExtractor []
    (inp.pyproject.map (fun pd => extract_pyproject_dependencies pd.1 pd.2))
  let acc := runExtractor acc
    (inp.poetryLock.map (fun pd => extract_poetry_lock_dependencies pd.1 pd.2))
  let acc := runExtractor acc
    (inp.pipfile.map (fun pd => extract_pipfile_dependencies pd.1 pd.2))
  let acc := runExtractor acc
    (inp.conda.map (fun pd => get_conda_dependencies pd.1 pd.2))
  let acc := runExtractor acc
    (inp.requirements.map (fun pd => get_pip_dependencies pd.1 pd.2))
  let acc := runExtractor acc
    (inp.setupPy.map (fun pd => parse_setup_py pd.1 pd.2))
  acc ++ extract_python_file_dependencies env inp.pyFiles "Python"

/-! ## Syntax-Tree Usage Visitor (analyze_python_ast.py) -/

/-- The syntax-tree nodes the visitor distinguishes; every other node shape
is `other` with its child list in field order. -/
inductive PyNode where
  | name (id : String) (lineno : Int)
  | importStmt (names : List String) (lineno : Int)
  | importFrom (module : Option String) (names : List String) (lineno : Int)
  | attribute (value : PyNode) (attr : String) (lineno : Int)
  | call (func : PyNode) (args : List PyNode) (lineno : Int)
  | other (children : List PyNode) (lineno : Int)

/-- The visitor's two append-only record lists. -/
structure VState where
  imports : List (String × Int)
  usage : List (String × Int)
deriving DecidableEq

mutual
/-- analyze_python_ast.py lines 7-30: `visit_Import` appends one record per
alias; `visit_ImportFrom` appends `f"{module}.{name}"` per alias (a missing
module rendering as `"None"`); `visit_Attribute` appends `f"{id}.{attr}"`
when the base is a plain name, then descends; calls and all other nodes just
descend into their children in field order. -/
def visit : PyNode → VState → VState
  | PyNode.name _ _, s => s
  | PyNode.importStmt names ln, s =>
    { s with imports := s.imports ++ names.map (fun n => (n, ln)) }
  | PyNode.importFrom module names ln, s =>
    let m := match module with
      | some m => m
      | none => "None"
    { s with imports := s.imports ++ names.map (fun n => (m ++ "." ++ n, ln)) }
  | PyNode.attribute value attr ln, s =>
    let s2 := match value with
      | PyNode.name id _ => { s with usage := s.usage ++ [(id ++ "." ++ attr, ln)] }
      | _ => s
    visit value s2
  | PyNode.call func args _, s => visitList args (visit func s)
  | PyNode.other children _, s => visitList children s

def visitList : List PyNode → VState → VState
  | [], s => s
  | c :: cs, s => visitList cs (visit c s)
end

/-- A `(file, category, symbol, line)` usage record. -/
abbrev URecord := String × String × String × Int

/-- analyze_python_ast.py lines 38-51, per file: on a successful parse,
all import records then all usage records; on a parse failure, the single
`error` record with the exception text and line `-1`. -/
def fileRecords (path : String) (res : Except String PyNode) : List URecord :=
  match res with
  | Except.ok tree =>
    let st := visit tree { imports := [], usage := [] }
    st.imports.map (fun ml => (path, "import", ml.1, ml.2)) ++
    st.usage.map (fun sl => (path, "usage", sl.1, sl.2))
  | Except.error e => [(path, "error", e, (-1 : Int))]

/-- analyze_python_ast.py lines 32-52: fold over the project's source files
(walk order), appending each file's records. -/
def analyze_repo (files : List (String × Except String PyNode)) : List URecord :=
  files.foldl (fun results pr => results ++ fileRecords pr.1 pr.2) []

/-- Per-file record blocks concatenated in walk order. -/
def concatBlocks (files : List (String × Except String PyNode)) : List URecord :=
  files.foldr (fun pr acc => fileRecords pr.1 pr.2 ++ acc) []

/-- Whether line numbers are non-decreasing along a record list. -/
def linesSorted : List URecord → Bool
  | [] => true
  | [_] => true
  | a :: b :: t => decide (a.2.2.2 ≤ b.2.2.2) && linesSorted (b :: t)

/-! ## Helper lemmas -/

lemma dropWhile_self_idem (p : Char → Bool) (l : List Char) :
    List.dropWhile p (List.dropWhile p l) = List.dropWhile p l := by
  induction l with
  | nil => rfl
  | cons a l ih =>
    by_cases h : p a = true
    · simp [List.dropWhile_cons, h, ih]
    · simp [List.dropWhile_cons, h]

lemma stripEnd_cons (x : Char) (l : List Char) (hx : pyIsSpace x = false) :
    stripEnd (x :: l) = x :: stripEnd l := by
  unfold stripEnd
  rw [List.reverse_cons, List.dropWhile_append]
  rcases h : List.dropWhile pyIsSpace l.reverse with _ | ⟨a, t⟩
  · simp [h, List.dropWhile_cons, hx]
  · simp [h, List.reverse_append]

lemma stripEnd_idem (l : List Char) : stripEnd (stripEnd l) = stripEnd l := by
  simp [stripEnd, List.reverse_reverse, dropWhile_self_idem]

lemma pyStrip_semicolon (body : List Char) :
    pyStrip (';' :: body) = ';' :: stripEnd body := by
  have h : pyIsSpace ';' = false := by decide
  simp [pyStrip, List.dropWhile_cons, h, stripEnd_cons]

lemma pyStrip_nil : pyStrip [] = [] := rfl

lemma pyStrip_space_cons (l : List Char) : pyStrip (' ' :: l) = pyStrip l := by
  have h : pyIsSpace ' ' = true := by decide
  simp [pyStrip, List.dropWhile_cons, h]

/-! ## Claim theorems about the Version/Condition Splitter -/

/-- C1: code_bug.  The specification's Splitter examples fail on the code:
the version-clause group of the raw pattern is written `[<>=~!]\s[\d\w\.\*]+`,
demanding a literal whitespace character after a single comparator character,
so the comparator clauses of `"pkg==1.0"`, `"pkg>=1.0"` and
`"pkg[extra]>=1.0; python_version>='3.8'"` never match (and with the cursor
left before the comparator, the condition clause of the last example cannot
match either).  All four specifiers therefore yield version `"Unknown"`,
where the claim expects `"==1.0"`, `">=1.0"`, `"Unknown"`, and the
comparator-plus-condition text respectively; only the bare `"pkg"` case
agrees.  The `\s` is evidently a slip for `\S`, with which every example of
the claim would hold. -/
theorem split_dependency_spec_examples :
    split_dependency "pkg==1.0" = ("pkg", "Unknown")
    ∧ split_dependency "pkg>=1.0" = ("pkg", "Unknown")
    ∧ split_dependency "pkg" = ("pkg", "Unknown")
    ∧ split_dependency specifierWithExtras = ("pkg", "Unknown") := by
  decide

/-- C5 counterexample: the specifier `"pkg;x"` matches the Splitter's pattern
with no comparator clause captured, yet the returned version is the condition
clause `";x"`, not `"Unknown"` as the claim states. -/
theorem split_dependency_condition_only_counterexample :
    matchSplit (pyStrip ("pkg;x".toList)) =
      some ("pkg".toList, none, some (';' :: "x".toList))
    ∧ split_dependency "pkg;x" = ("pkg", ";x")
    ∧ (split_dependency "pkg;x").2 ≠ "Unknown" := by
  decide

/-- C5 (amended): for a specifier matching the pattern, the returned version
is `"Unknown"` exactly in the absence of both the comparator clause and the
condition clause; when a condition clause is captured without a comparator
clause, the returned version is the stripped condition clause itself. -/
theorem split_dependency_unknown_iff_no_clauses :
    (∀ (dep : String) (g1 body : List Char),
        matchSplit (pyStrip dep.toList) = some (g1, none, some (';' :: body)) →
        (split_dependency dep).2 = (';' :: stripEnd body).asString)
    ∧ (∀ (dep : String) (g1 : List Char),
        matchSplit (pyStrip dep.toList) = some (g1, none, none) →
        (split_dependency dep).2 = "Unknown") := by
  constructor
  · intro dep g1 body h
    simp only [split_dependency]
    rw [h]
    simp [pyStrip_nil, pyStrip_semicolon, stripEnd_idem, pyStrip_space_cons]
  · intro dep g1 h
    simp only [split_dependency]
    rw [h]
    rfl

/-- C5 witness: the amended theorem applied to the concrete specifier
`"pkg;x"`. -/
theorem split_dependency_unknown_iff_no_clauses_witness :
    (split_dependency "pkg;x").2 = (';' :: stripEnd "x".toList).asString :=
  split_dependency_unknown_iff_no_clauses.1 "pkg;x" "pkg".toList "x".toList
    (by decide)

/-- C10: the Splitter's pattern match is an unanchored prefix match.  When
the stripped specifier begins with a word/hyphen character the match
succeeds and the package is the longest leading run of word/hyphen
characters (so `"pkg.name==1.0"` is truncated at the dot, with version
`"Unknown"`); the whole-string fallback is taken exactly when the stripped
specifier does not begin with such a character (e.g. the empty string). -/
theorem split_dependency_prefix_semantics :
    (∀ (dep : String) (c : Char) (cs : List Char),
        pyStrip dep.toList = c :: cs → isNameChar c = true →
        (split_dependency dep).1 = ((c :: cs).takeWhile isNameChar).asString)
    ∧ (∀ dep : String,
        (∀ (c : Char) (cs : List Char),
          pyStrip dep.toList = c :: cs → isNameChar c = false) →
        split_dependency dep = (dep, "Unknown"))
    ∧ split_dependency "pkg.name==1.0" = ("pkg", "Unknown")
    ∧ split_dependency "" = ("", "Unknown") := by
  refine ⟨?_, ?_, by decide, by decide⟩
  · intro dep c cs h hc
    simp only [split_dependency, h, matchSplit]
    simp [List.takeWhile_cons, hc]
  · intro dep hb
    rcases hs : pyStrip dep.toList with _ | ⟨c, cs⟩
    · simp only [split_dependency]
      rw [hs]
      rfl
    · have hc := hb c cs hs
      have hm : matchSplit (c :: cs) = none := by
        simp [matchSplit, List.takeWhile_cons, hc]
      simp only [split_dependency]
      rw [hs, hm]

/-- C10 witness: the theorem applied to `"numpy>=1.0"` (prefix-match case)
and `"==2.0"` (fallback case). -/
theorem split_dependency_prefix_semantics_witness :
    (split_dependency "numpy>=1.0").1 =
      (('n' :: "umpy>=1.0".toList).takeWhile isNameChar).asString
    ∧ split_dependency "==2.0" = ("==2.0", "Unknown") := by
  refine ⟨split_dependency_prefix_semantics.1 "numpy>=1.0" 'n'
    "umpy>=1.0".toList (by decide) (by decide),
    split_dependency_prefix_semantics.2.1 "==2.0" ?_⟩
  intro c cs h
  have h0 : pyStrip "==2.0".toList = '=' :: "=2.0".toList := by decide
  rw [h0] at h
  cases h
  decide

/-! ## Claim theorems about the manifest parsers and the aggregator -/

/-- C3 counterexample: `parse_setup_py` has no error handler of its own — on
an unreadable or malformed packaging script it propagates the exception to
its caller, contradicting the claim that no parser call ever propagates. -/
theorem parse_setup_py_propagates_error :
    parse_setup_py "setup.py" (Except.error "boom") = Except.error "boom" :=
  rfl

/-- C3 (amended): five of the six manifest parsers (Pipfile, pyproject.toml,
poetry.lock, environment.yml, requirements.txt) catch their own I/O and
parse errors and always return a list; the packaging-script parser
`parse_setup_py` propagates its errors, and they are caught one level up by
the Dependency Aggregator's per-extractor handler, so an erroring setup.py
contributes exactly nothing to the aggregation (the same as a missing one)
and the aggregation never aborts. -/
theorem manifest_parsers_error_policy :
    (∀ (path : String) (inp : Except String PipfileData),
      ∃ l, extract_pipfile_dependencies path inp = Except.ok l)
    ∧ (∀ (path : String) (inp : Except String PyprojectData),
      ∃ l, extract_pyproject_dependencies path inp = Except.ok l)
    ∧ (∀ (path : String) (inp : Except String PoetryLockData),
      ∃ l, extract_poetry_lock_dependencies path inp = Except.ok l)
    ∧ (∀ (path : String) (inp : Except String CondaData),
      ∃ l, get_conda_dependencies path inp = Except.ok l)
    ∧ (∀ (path : String) (inp : Except String (List String)),
      ∃ l, get_pip_dependencies path inp = Except.ok l)
    ∧ (∀ (env : ScanEnv) (inp : ProjectInput) (path e : String),
      extract_project_dependencies env
        { inp with setupPy := some (path, Except.error e) } =
      extract_project_dependencies env { inp with setupPy := none }) :=
  ⟨fun _ _ => ⟨_, rfl⟩, fun _ _ => ⟨_, rfl⟩, fun _ _ => ⟨_, rfl⟩,
   fun _ _ => ⟨_, rfl⟩, fun _ _ => ⟨_, rfl⟩, fun _ _ _ _ => rfl⟩

/-- C7: when a pyproject file has the nested `tool.poetry` table, only its
`dependencies` and `dev-dependencies` entries are returned — the result does
not depend on the standard `project.dependencies` list at all; the standard
list is read exactly when the nested table is absent. -/
theorem extract_pyproject_poetry_precedence :
    (∀ (path : String) (pd : PoetryData) (q q2 : Option (List String)),
      extract_pyproject_dependencies path (Except.ok ⟨some pd, q⟩) =
      extract_pyproject_dependencies path (Except.ok ⟨some pd, q2⟩))
    ∧ (∀ (path : String) (pd : PoetryData) (q : Option (List String)),
      extract_pyproject_dependencies path (Except.ok ⟨some pd, q⟩) =
      Except.ok
        ((pd.dependencies.getD []).map (fun pv => depTriple path (pv.1 ++ pv.2)) ++
         (pd.devDependencies.getD []).map (fun pv => depTriple path (pv.1 ++ pv.2))))
    ∧ (∀ (path : String) (l : List String),
      extract_pyproject_dependencies path (Except.ok ⟨none, some l⟩) =
      Except.ok (l.map (fun dep => depTriple path dep))) :=
  ⟨fun _ _ _ _ => rfl, fun _ _ _ => rfl, fun _ _ => rfl⟩

/-- C8: the Dependency Aggregator is a pure function of the project tree and
the runtime environment, so two consecutive runs over an unchanged tree
within the same interpreter produce identical record sequences; moreover the
inline-scan contribution is always the final, contiguous suffix of the
sequence, after all manifest records. -/
theorem extract_project_dependencies_deterministic :
    ∀ (env : ScanEnv) (inp : ProjectInput),
      extract_project_dependencies env inp = extract_project_dependencies env inp
      ∧ List.IsSuffix (extract_python_file_dependencies env inp.pyFiles "Python")
          (extract_project_dependencies env inp) :=
  fun _ _ => ⟨rfl, ⟨_, rfl⟩⟩

/-! ## Claim theorems about the Inline-Import Scanner -/

lemma mem_setInsert {α : Type} [DecidableEq α] (t s : α) (acc : List α) :
    t ∈ setInsert acc s ↔ t ∈ acc ∨ t = s := by
  unfold setInsert
  split
  · rename_i h
    constructor
    · exact Or.inl
    · rintro (h2 | rfl)
      · exact h2
      · exact h
  · simp

lemma mem_scanFileLines (env : ScanEnv) (p label : String)
    (lines : List (List Char)) :
    ∀ (acc : List Triple) (t : Triple),
      t ∈ scanFileLines env p label acc lines ↔
        t ∈ acc ∨ ∃ line ∈ lines, lineTriple env p label line = some t := by
  induction lines with
  | nil => intro acc t; simp [scanFileLines]
  | cons l ls ih =>
    intro acc t
    rcases hl : lineTriple env p label l with _ | u
    · rw [show scanFileLines env p label acc (l :: ls) =
          scanFileLines env p label acc ls from by
        simp [scanFileLines, hl]]
      rw [ih acc t]
      simp [List.exists_mem_cons_iff, hl]
    · rw [show scanFileLines env p label acc (l :: ls) =
          scanFileLines env p label (setInsert acc u) ls from by
        simp [scanFileLines, hl]]
      rw [ih _ t, mem_setInsert]
      simp only [List.exists_mem_cons_iff, hl, Option.some.injEq]
      constructor
      · rintro ((h | rfl) | h)
        · exact Or.inl h
        · exact Or.inr (Or.inl rfl)
        · exact Or.inr (Or.inr h)
      · rintro (h | rfl | h)
        · exact Or.inl (Or.inl h)
        · exact Or.inl (Or.inr rfl)
        · exact Or.inr h

lemma mem_extract_python_file_dependencies (env : ScanEnv)
    (files : List (String × Except String (List (List Char))))
    (label : String) (t : Triple) :
    t ∈ extract_python_file_dependencies env files label ↔
      ∃ p lines, (p, Except.ok lines) ∈ files ∧
        ∃ line ∈ lines, lineTriple env p label line = some t := by
  have aux : ∀ (fs : List (String × Except String (List (List Char))))
      (acc : List Triple),
      t ∈ fs.foldl (fun acc f =>
        match f.2 with
        | Except.error _ => acc
        | Except.ok lines => scanFileLines env f.1 label acc lines) acc ↔
        t ∈ acc ∨ ∃ p lines, (p, Except.ok lines) ∈ fs ∧
          ∃ line ∈ lines, lineTriple env p label line = some t := by
    intro fs
    induction fs with
    | nil => intro acc; simp
    | cons f fs2 ih =>
      intro acc
      rcases f with ⟨p0, r0⟩
      rcases r0 with e0 | lines0
      · rw [show ((p0, Except.error e0) :: fs2).foldl (fun acc f =>
            match f.2 with
            | Except.error _ => acc
            | Except.ok lines => scanFileLines env f.1 label acc lines) acc =
            fs2.foldl (fun acc f =>
              match f.2 with
              | Except.error _ => acc
              | Except.ok lines => scanFileLines env f.1 label acc lines) acc
            from rfl]
        rw [ih acc]
        simp [Prod.ext_iff]
      · rw [show ((p0, Except.ok lines0) :: fs2).foldl (fun acc f =>
            match f.2 with
            | Except.error _ => acc
            | Except.ok lines => scanFileLines env f.1 label acc lines) acc =
            fs2.foldl (fun acc f =>
              match f.2 with
              | Except.error _ => acc
              | Except.ok lines => scanFileLines env f.1 label acc lines)
              (scanFileLines env p0 label acc lines0) from rfl]
        rw [ih _, mem_scanFileLines]
        simp only [List.mem_cons, Prod.mk.injEq, Except.ok.injEq]
        constructor
        · rintro ((h | ⟨line, hline, hlt⟩) | ⟨p, lines, hf, hrest⟩)
          · exact Or.inl h
          · exact Or.inr ⟨p0, lines0, Or.inl ⟨rfl, rfl⟩, line, hline, hlt⟩
          · exact Or.inr ⟨p, lines, Or.inr hf, hrest⟩
        · rintro (h | ⟨p, lines, (⟨rfl, rfl⟩ | hf), hrest⟩)
          · exact Or.inl (Or.inl h)
          · exact Or.inl (Or.inr hrest)
          · exact Or.inr ⟨p, lines, hf, hrest⟩
  simpa using aux files []

lemma lineTriple_eq_some (env : ScanEnv) (p2 label : String)
    (line : List Char) (p m lb2 : String) :
    lineTriple env p2 label line = some (p, m, lb2) ↔
      p2 = p ∧ label = lb2 ∧ ∃ raw, lineImportModule line = some raw ∧
        topLevel raw = m ∧ is_builtin_module env m = false := by
  unfold lineTriple
  rcases h : lineImportModule line with _ | raw
  · simp [h]
  · simp only [h]
    by_cases hb : is_builtin_module env (topLevel raw) = true
    · rw [if_pos hb]
      constructor
      · rintro ⟨⟩
      · rintro ⟨-, -, raw2, hr2, rfl, hbm⟩
        rw [show raw2 = raw from by injection hr2 with h3; exact h3.symm] at hbm
        rw [hb] at hbm
        cases hbm
    · rw [if_neg hb]
      simp only [Option.some.injEq, Prod.mk.injEq]
      constructor
      · rintro ⟨rfl, rfl, rfl⟩
        exact ⟨rfl, rfl, raw, rfl, rfl, by simpa using hb⟩
      · rintro ⟨rfl, rfl, raw2, rfl, hm, -⟩
        exact ⟨rfl, hm, rfl⟩

/-- C2 counterexample: in an environment where `os` and `requests` are both
locatable by the module-resolution mechanism and neither is in the
builtin-module registry (the situation in any real interpreter with
`requests` installed), the scanner keeps BOTH `os` and `requests`: the code
keeps a matched name exactly when it is not registry-builtin AND locatable,
which contradicts the claim that a name is kept iff it is NOT resolvable
(and its example that only `requests` appears). -/
theorem inline_scan_keeps_resolvable_counterexample :
    (let env : ScanEnv :=
      { builtins := ["sys", "_ast"],
        findSpec := fun m => m == "os" || m == "requests" }
     extract_python_file_dependencies env
        [("app.py", Except.ok ["import os".toList, "import requests".toList])]
        "Python" =
      [("app.py", "os", "Python"), ("app.py", "requests", "Python")]
     ∧ env.findSpec "os" = true
     ∧ env.builtins.contains "os" = false) := by
  decide

/-- C2 (amended): a triple `(p, m, label)` is in the scanner's result set iff
some line of a readable source file `p` matches the import pattern with
top-level module `m` and `is_builtin_module` is false for `m` — and
`is_builtin_module` is false exactly when `m` is NOT in the builtin-module
registry AND IS locatable via the module-resolution mechanism (unlocatable
names are treated as builtin and filtered out, the reverse of the claim's
resolvability condition). -/
theorem inline_scan_membership_characterization :
    ∀ (env : ScanEnv) (files : List (String × Except String (List (List Char))))
      (label p m : String),
      ((p, m, label) ∈ extract_python_file_dependencies env files label ↔
        ∃ lines, (p, Except.ok lines) ∈ files ∧
          ∃ line ∈ lines, ∃ raw, lineImportModule line = some raw ∧
            topLevel raw = m ∧ is_builtin_module env m = false)
      ∧ (is_builtin_module env m = false ↔
          (env.builtins.contains m = false ∧ env.findSpec m = true)) := by
  intro env files label p m
  constructor
  · rw [mem_extract_python_file_dependencies]
    constructor
    · rintro ⟨p2, lines, hf, line, hline, hlt⟩
      rw [lineTriple_eq_some] at hlt
      obtain ⟨rfl, -, raw, hraw, hm, hb⟩ := hlt
      exact ⟨lines, hf, line, hline, raw, hraw, hm, hb⟩
    · rintro ⟨lines, hf, line, hline, raw, hraw, hm, hb⟩
      refine ⟨p, lines, hf, line, hline, ?_⟩
      rw [lineTriple_eq_some]
      exact ⟨rfl, rfl, raw, hraw, hm, hb⟩
  · unfold is_builtin_module
    cases h1 : env.builtins.contains m <;> cases h2 : env.findSpec m <;> simp

/-! ## Claim theorems about the usage analysis (analyze_python_ast.py) -/

lemma concatBlocks_cons (f : String × Except String PyNode)
    (fs : List (String × Except String PyNode)) :
    concatBlocks (f :: fs) = fileRecords f.1 f.2 ++ concatBlocks fs := rfl

lemma foldl_records_eq (files : List (String × Except String PyNode)) :
    ∀ acc : List URecord,
      files.foldl (fun results pr => results ++ fileRecords pr.1 pr.2) acc =
        acc ++ concatBlocks files := by
  induction files with
  | nil => intro acc; simp [concatBlocks]
  | cons f fs ih =>
    intro acc
    rw [List.foldl_cons, ih, concatBlocks_cons, List.append_assoc]

lemma analyze_repo_eq_concatBlocks (files : List (String × Except String PyNode)) :
    analyze_repo files = concatBlocks files := by
  unfold analyze_repo
  rw [foldl_records_eq]
  simp

lemma concatBlocks_append (a b : List (String × Except String PyNode)) :
    concatBlocks (a ++ b) = concatBlocks a ++ concatBlocks b := by
  induction a with
  | nil => simp [concatBlocks]
  | cons f fs ih => rw [List.cons_append, concatBlocks_cons, concatBlocks_cons,
      ih, List.append_assoc]

/-- C6: a source file whose text fails to parse contributes exactly one
record — category `"error"`, the exception message as symbol, line `-1` —
with no import or usage records for that file, and the scan of the remaining
files continues unchanged. -/
theorem analyze_repo_parse_error_record :
    ∀ (fs1 : List (String × Except String PyNode)) (p e : String)
      (fs2 : List (String × Except String PyNode)),
      analyze_repo (fs1 ++ (p, Except.error e) :: fs2) =
        analyze_repo fs1 ++ (p, "error", e, (-1 : Int)) :: analyze_repo fs2 := by
  intro fs1 p e fs2
  rw [analyze_repo_eq_concatBlocks, analyze_repo_eq_concatBlocks,
    analyze_repo_eq_concatBlocks, concatBlocks_append, concatBlocks_cons]
  rfl

/-- C4 counterexample: a file whose tree has an attribute usage on line 1
followed by an import on line 2 produces the import record (line 2) BEFORE
the usage record (line 1) — the per-file records are not in top-to-bottom
line order regardless of category, contrary to the claim. -/
theorem analyze_repo_not_line_ordered :
    analyze_repo [("f.py", Except.ok (PyNode.other
      [PyNode.attribute (PyNode.name "obj" 1) "method" 1,
       PyNode.importStmt ["json"] 2] 1))] =
      [("f.py", "import", "json", 2), ("f.py", "usage", "obj.method", 1)]
    ∧ linesSorted (analyze_repo [("f.py", Except.ok (PyNode.other
      [PyNode.attribute (PyNode.name "obj" 1) "method" 1,
       PyNode.importStmt ["json"] 2] 1))]) = false := by
  decide

/-- C4 (amended): the records are grouped per file in directory-walk order
(the whole output is the concatenation of per-file blocks), every record of
a file's block carries that file's path, and within each block all records
of category `import` (or the lone `error` record) precede all records of
category `usage`; the two category runs each follow syntax-tree traversal
order, and are NOT interleaved by line number. -/
theorem analyze_repo_file_blocks :
    (∀ files : List (String × Except String PyNode),
      analyze_repo files = concatBlocks files)
    ∧ (∀ (p : String) (res : Except String PyNode),
      (fileRecords p res).all (fun r => r.1 == p) = true
      ∧ ∃ a b, fileRecords p res = a ++ b
        ∧ a.all (fun r => r.2.1 == "import" || r.2.1 == "error") = true
        ∧ b.all (fun r => r.2.1 == "usage") = true) := by
  refine ⟨analyze_repo_eq_concatBlocks, ?_⟩
  intro p res
  rcases res with e | tree
  · exact ⟨by simp [fileRecords], [(p, "error", e, (-1 : Int))], [], rfl,
      by simp, by simp⟩
  · constructor
    · rw [List.all_eq_true]
      intro r hr
      rcases List.mem_append.1 hr with h | h <;>
        obtain ⟨x, -, rfl⟩ := List.mem_map.1 h <;> simp
    · refine ⟨_, _, rfl, ?_, ?_⟩
      · rw [List.all_eq_true]
        intro r hr
        obtain ⟨x, -, rfl⟩ := List.mem_map.1 hr
        simp
      · rw [List.all_eq_true]
        intro r hr
        obtain ⟨x, -, rfl⟩ := List.mem_map.1 hr
        simp

/-- C9: a `from . import X` statement (module part absent) is neither
skipped nor an error: the visitor appends one import record per alias, whose
symbol is the literal rendering `"None."` prefixed to the alias name, at the
statement's line number; through the per-file driver this yields exactly
those records. -/
theorem visit_importFrom_none_module :
    (∀ (names : List String) (ln : Int) (s : VState),
      visit (PyNode.importFrom none names ln) s =
        { s with imports :=
            s.imports ++ names.map (fun n => ("None." ++ n, ln)) })
    ∧ (∀ (p : String) (names : List String) (ln : Int),
      analyze_repo [(p, Except.ok (PyNode.importFrom none names ln))] =
        names.map (fun n => (p, "import", "None." ++ n, ln))) := by
  constructor
  · intro names ln s
    rfl
  · intro p names ln
    show ([] : List URecord) ++ fileRecords p
      (Except.ok (PyNode.importFrom none names ln)) = _
    simp [fileRecords, visit, List.map_map]
